import Mathlib

/-!
Verification development for the waiwera docker wrapper (waiwera-dkr.py).

Strings are modelled as `List Char`; Python string operations used by the
script (`str.replace`, `str.strip`, `str.split`, slicing) are given explicit
executable models.  External processes (docker, docker-machine, VBoxManage)
are modelled by oracles recording their observable behaviour; filesystem
effects on the two lifecycle marker files are modelled by an explicit
filesystem state.
-/

namespace Waiwera

/-- Python `s.replace(old, new)` where `old` and `new` are single characters:
every occurrence of `old` is replaced by `new`. -/
def pyReplaceChar (old new : Char) (s : List Char) : List Char :=
  s.map fun c => if c = old then new else c

/-- Python `s.replace(old, "")` for a single-character `old`: every
occurrence of `old` is deleted. -/
def pyDeleteChar (old : Char) (s : List Char) : List Char :=
  s.filter fun c => c ≠ old

/-- Python `s.replace("//", "/")`: left-to-right, non-overlapping; after a
replacement scanning resumes past the replaced pair. -/
def collapseDoubleSlash : List Char → List Char
  | [] => []
  | [c] => [c]
  | c :: d :: rest =>
    if c = '/' ∧ d = '/' then '/' :: collapseDoubleSlash rest
    else c :: collapseDoubleSlash (d :: rest)

/-- `true` iff the list contains two adjacent `'/'` characters. -/
def hasDoubleSlash : List Char → Bool
  | [] => false
  | [_] => false
  | c :: d :: rest => (decide (c = '/' ∧ d = '/')) || hasDoubleSlash (d :: rest)

/-- `DockerEnv.convert_path_nt_to_posix` (waiwera-dkr.py line 285):
`'/{0}'.format(path.replace("\\","/").replace(":","").replace('//','/'))`. -/
def DockerEnv.convert_path_nt_to_posix (path : List Char) : List Char :=
  '/' :: collapseDoubleSlash (pyDeleteChar ':' (pyReplaceChar '\\' '/' path))

/-- module-level `convert_path_nt_to_posix` (waiwera-dkr.py line 451):
`'/{0}'.format(path.replace("\\","/").replace(":",""))` — note: no
`.replace('//','/')` step, unlike the method of the same name. -/
def convert_path_nt_to_posix (path : List Char) : List Char :=
  '/' :: pyDeleteChar ':' (pyReplaceChar '\\' '/' path)

theorem collapseDoubleSlash_eq_self :
    ∀ (l : List Char), hasDoubleSlash l = false → collapseDoubleSlash l = l
  | [], _ => rfl
  | [_], _ => rfl
  | c :: d :: rest, h => by
    have h' : (¬(c = '/' ∧ d = '/')) ∧ hasDoubleSlash (d :: rest) = false := by
      simpa [hasDoubleSlash] using h
    simp only [collapseDoubleSlash, if_neg h'.1]
    rw [collapseDoubleSlash_eq_self (d :: rest) h'.2]

/-- Python whitespace characters recognised by `str.strip()`. -/
def isPySpace (c : Char) : Bool :=
  c = ' ' || c = '\t' || c = '\n' || c = '\r' || c = Char.ofNat 11 || c = Char.ofNat 12

/-- Python `s.strip()`: remove leading and trailing whitespace. -/
def pyStrip (s : List Char) : List Char :=
  ((s.dropWhile isPySpace).reverse.dropWhile isPySpace).reverse

/-- Python `s.split('\n')`: always at least one (possibly empty) field. -/
def splitNl : List Char → List (List Char)
  | [] => [[]]
  | c :: rest =>
    if c = '\n' then [] :: splitNl rest
    else
      match splitNl rest with
      | line :: more => (c :: line) :: more
      | [] => [[c]]

/-- Python `sub in s`: `sub` occurs contiguously in `s`. -/
def containsSub (sub : List Char) : List Char → Bool
  | [] => sub.isPrefixOf []
  | c :: rest => sub.isPrefixOf (c :: rest) || containsSub sub rest

/-- The literal `Name: '` opening the shared-folder entry pattern
(waiwera-dkr.py line 244). -/
def nameOpenLit : List Char := ['N', 'a', 'm', 'e', ':', ' ', '\'']

/-- The literal `', Host path: '` between the name and host captures. -/
def hostMidLit : List Char :=
  ['\'', ',', ' ', 'H', 'o', 's', 't', ' ', 'p', 'a', 't', 'h', ':', ' ', '\'']

/-- The literal `' ` (quote, space) closing the host capture. -/
def hostCloseLit : List Char := ['\'', ' ']

/-- Backtracking model of the lazy capture `(?P<host>.+?)' (?P<comment>.+)`:
given the text after `Host path: '`, return the shortest non-empty host
followed by `' ` and a non-empty comment. -/
def findHost (acc : List Char) : List Char → Option (List Char)
  | [] => none
  | c :: rest =>
    if hostCloseLit.isPrefixOf rest ∧ rest.drop 2 ≠ [] then acc ++ [c]
    else findHost (acc ++ [c]) rest

/-- Backtracking model of the lazy capture `(?P<name>.+?)', Host path: '…`:
given the text after `Name: '`, return the shortest non-empty name whose
remainder also matches the host-and-comment part; extends the name when the
tail fails to match (regex backtracking). -/
def findName (acc : List Char) : List Char → Option (List Char × List Char)
  | [] => none
  | c :: rest =>
    if hostMidLit.isPrefixOf rest then
      match findHost [] (rest.drop hostMidLit.length) with
      | some host => some (acc ++ [c], host)
      | none => findName (acc ++ [c]) rest
    else findName (acc ++ [c]) rest

/-- Model of `pat.search(line)` for the compiled pattern
`Name: '(?P<name>.+?)', Host path: '(?P<host>.+?)' (?P<comment>.+)`
(waiwera-dkr.py line 244): try each start position left to right. -/
def searchEntry : List Char → Option (List Char × List Char)
  | [] => none
  | c :: rest =>
    if nameOpenLit.isPrefixOf (c :: rest) then
      match findName [] ((c :: rest).drop nameOpenLit.length) with
      | some r => some r
      | none => searchEntry rest
    else searchEntry rest

/-- The header literal `Shared folders:`. -/
def sharedFoldersLit : List Char :=
  ['S', 'h', 'a', 'r', 'e', 'd', ' ', 'f', 'o', 'l', 'd', 'e', 'r', 's', ':']

/-- The `<none>` marker looked for on the header line. -/
def noneMarkerLit : List Char := ['<', 'n', 'o', 'n', 'e', '>']

/-- Line-by-line loop of `parse_vminfo` (waiwera-dkr.py lines 245-263).
State: `found` (inside a shared-folders section), `empty` (cumulative count
of blank section lines), accumulated `maps`.  Returns `none` when a
non-blank section line fails to match the pattern (the Python code then
raises `AttributeError` on `ms.groupdict()`). -/
def parseVminfoLoop :
    Bool → Nat → List (List Char × List Char) → List (List Char) →
      Option (List (List Char × List Char))
  | _, _, maps, [] => some maps
  | found, empty, maps, line :: rest =>
    if sharedFoldersLit.isPrefixOf line then
      if containsSub noneMarkerLit line then some maps
      else parseVminfoLoop true empty maps rest
    else if found then
      let line' := pyStrip line
      if line' ≠ [] then
        match searchEntry line' with
        | some (nm, host) =>
          let maps' := maps ++ [(host, nm)]
          if empty = 2 then parseVminfoLoop false empty maps' rest
          else parseVminfoLoop found empty maps' rest
        | none => none
      else
        let empty' := empty + 1
        if empty' = 2 then parseVminfoLoop false empty' maps rest
        else parseVminfoLoop found empty' maps rest
    else parseVminfoLoop found empty maps rest

/-- `parse_vminfo` (waiwera-dkr.py lines 241-265): extract shared folders
from `vboxmanage showvminfo` output, as `(host, name)` pairs. -/
def parse_vminfo (vminfo : List Char) : Option (List (List Char × List Char)) :=
  parseVminfoLoop false 0 [] (splitNl vminfo)

/-- `sys.platform` values the script branches on. -/
inductive Platform
  | win32
  | linux
  | darwin
deriving DecidableEq, Repr

/-- Python `s.lower()` (ASCII case folding suffices for the inputs used). -/
def pyLower (s : List Char) : List Char := s.map Char.toLower

/-- The signature string `boot2docker` looked for in the OS descriptor. -/
def boot2dockerLit : List Char :=
  ['b', 'o', 'o', 't', '2', 'd', 'o', 'c', 'k', 'e', 'r']

/-- Abstraction of a successfully JSON-parsed `docker info` document: the
two fields the script reads (`ServerErrors` presence and
`OperatingSystem`). -/
structure DockerInfo where
  hasServerErrors : Bool
  operatingSystem : List Char
deriving DecidableEq, Repr

/-- Observable outcome of the external `docker info --format json` call:
`callOk` is the success flag returned by `call` (exit status 0), `parsed`
is the result of `json.loads` on its stdout (`none` = `ValueError`). -/
structure ProbeInput where
  callOk : Bool
  parsed : Option DockerInfo
deriving DecidableEq, Repr

/-- The mutable fields of `DockerEnv` that `check_running` reads and
writes; `none` models Python `None` (not yet checked). -/
structure EnvState where
  running : Option Bool
  is_toolbox : Option Bool
deriving DecidableEq, Repr

/-- `DockerEnv.check_running` (waiwera-dkr.py lines 115-150), given the
prior object state and the observable outcome of the `docker info` call.
`Except.error` models an uncaught Python exception (the `KeyError` on
`self.info['OperatingSystem']` when the call succeeded but its stdout was
not JSON); the error payload carries the object state at the time of the
raise, since the fields mutated before it stay mutated. -/
def DockerEnv.check_running (prior : EnvState) (inp : ProbeInput) :
    Except EnvState EnvState :=
  let st1 : EnvState := ⟨some inp.callOk, prior.is_toolbox⟩
  let st2 : EnvState :=
    match inp.parsed with
    | none => ⟨st1.running, some true⟩
    | some _ => st1
  if inp.callOk then
    match inp.parsed with
    | none => Except.error st2
    | some info =>
      if info.hasServerErrors then Except.ok ⟨some false, st2.is_toolbox⟩
      else
        Except.ok ⟨st2.running, some (containsSub boot2dockerLit (pyLower info.operatingSystem))⟩
  else Except.ok st2

/-- The object state however `check_running` ended (normally or by
raising): the raise happens after the field mutations. -/
def exceptState : Except EnvState EnvState → EnvState
  | Except.ok st => st
  | Except.error st => st

/-- Oracle for the external calls made during `DockerEnv.__init__` with
`check=True`: the first probe, the probe after `update_env`, the platform,
whether the `repair_win_toolbox` external steps all succeed (otherwise it
calls `exit(1)`), and what a re-probe after the repair would report —
recorded to express that the code never performs such a re-probe. -/
structure InitOracle where
  existsOk : Bool
  probe1 : ProbeInput
  probe2 : ProbeInput
  platform : Platform
  repairOk : Bool
  postRepairProbe : ProbeInput
deriving DecidableEq, Repr

/-- Outcome of `DockerEnv.__init__` with `check=True`. -/
inductive InitOutcome
  | ok (st : EnvState)
  | raisedRepairFail
  | raisedNotRunning
  | exited1
  | crashed
deriving DecidableEq, Repr

/-- `DockerEnv.__init__` health-check-and-repair flow (waiwera-dkr.py
lines 83-100), for `toolbox=None, toolbox_folder_map=[]`.  Python
truthiness: `if not self.running` is taken unless `running` is `True`;
`if self.is_toolbox` is taken only when `is_toolbox` is `True`.
`repair_win_toolbox` (lines 171-236) runs external docker-machine /
VBoxManage commands and `update_env`; it never assigns `self.running`, so
the state reaching the final `if not self.running` test is the state left
by the second `check_running`. -/
def DockerEnv.init (o : InitOracle) : InitOutcome :=
  match DockerEnv.check_running ⟨none, none⟩ o.probe1 with
  | Except.error _ => InitOutcome.crashed
  | Except.ok st1 =>
    if st1.running = some true then InitOutcome.ok st1
    else
      if st1.is_toolbox = some true then
        match DockerEnv.check_running st1 o.probe2 with
        | Except.error _ => InitOutcome.crashed
        | Except.ok st2 =>
          if st2.running = some true then InitOutcome.ok st2
          else
            if o.platform = Platform.win32 ∧ o.repairOk = false then
              InitOutcome.exited1
            else
              if st2.running = some true then InitOutcome.ok st2
              else InitOutcome.raisedRepairFail
      else InitOutcome.raisedNotRunning

/-- `os.path.join(p, '')` on the given platform: appends the platform
separator unless `p` is empty or already ends in a separator (on Windows a
trailing `:` also suppresses it, as in `ntpath.join`). -/
def osPathJoinEmpty (plat : Platform) (p : List Char) : List Char :=
  match plat with
  | Platform.win32 =>
    if p = [] then p
    else if p.getLast? = some '\\' ∨ p.getLast? = some '/' ∨ p.getLast? = some ':' then p
    else p ++ ['\\']
  | _ =>
    if p = [] then p
    else if p.getLast? = some '/' then p
    else p ++ ['/']

/-- `DockerEnv.convert_path_vbox_share` (waiwera-dkr.py lines 272-283):
scan the folder map in reverse for a share whose host path (with a
trailing separator, lower-cased on Windows) is a prefix of the path (same
normalisation); on a hit return `share + '/' + path[len(m):]`.  Returns
`none` (Python `None`) when nothing matches. -/
def DockerEnv.convert_path_vbox_share (plat : Platform)
    (folder_map : List (List Char × List Char)) (path : List Char) :
    Option (List Char) :=
  go folder_map.reverse
where
  go : List (List Char × List Char) → Option (List Char)
  | [] => none
  | (m, share) :: rest =>
    let pp := osPathJoinEmpty plat path
    let mm := osPathJoinEmpty plat m
    let pp := if plat = Platform.win32 then pyLower pp else pp
    let mm := if plat = Platform.win32 then pyLower mm else mm
    if mm.isPrefixOf pp then some (share ++ ['/'] ++ path.drop m.length)
    else go rest

/-- Oracle for the interactive branch of `volume_path` on Windows: the
`raw_input` answer to the share prompt, and the folder map re-read by
`get_vbox_share` after `toolbox_conf_share_win` registered the new
share. -/
structure VolumeOracle where
  promptYes : Bool
  remapped : List (List Char × List Char)
deriving DecidableEq, Repr

/-- `DockerEnv.volume_path` (waiwera-dkr.py lines 324-348) for an explicit
`path`.  `Except.error` models the uncaught `AttributeError` raised by
`convert_path_nt_to_posix(None)` when, on Windows, the share was
registered on request but the retry still found no mapping; `Except.ok
none` is an ordinary `return None` (user declined the prompt, or non-
Windows platform with no mapping). -/
def DockerEnv.volume_path (plat : Platform) (is_toolbox : Bool)
    (folder_map : List (List Char × List Char)) (vo : VolumeOracle)
    (path : List Char) : Except Unit (Option (List Char)) :=
  let step2 : List (List Char × List Char) → Except Unit (Option (List Char)) :=
    fun fm =>
      match DockerEnv.convert_path_vbox_share plat fm path with
      | some cwd =>
        if plat = Platform.win32 then
          Except.ok (some (DockerEnv.convert_path_nt_to_posix cwd))
        else Except.ok (some cwd)
      | none =>
        if plat = Platform.win32 then Except.error ()
        else Except.ok none
  if is_toolbox then
    match DockerEnv.convert_path_vbox_share plat folder_map path with
    | some _ => step2 folder_map
    | none =>
      if plat = Platform.win32 then
        if vo.promptYes then step2 vo.remapped
        else Except.ok none
      else step2 folder_map
  else
    if plat = Platform.win32 then
      Except.ok (some (DockerEnv.convert_path_nt_to_posix path))
    else Except.ok (some path)

/-- `REPO` (waiwera-dkr.py line 18). -/
def REPO : List Char := "waiwera/waiwera".toList

/-- `TAG` (waiwera-dkr.py line 19). -/
def TAG : List Char := "latest".toList

/-- `WAIWERA_PATH` (waiwera-dkr.py line 20). -/
def WAIWERA_PATH : List Char := "/opt/waiwera/build/waiwera".toList

/-- `CID_LEN` (waiwera-dkr.py line 22). -/
def CID_LEN : Nat := 12

/-- Python `'\x7b\x7d'.format(x)` for `x` an optional string: `None`
formats as the four characters `None`. -/
def optFormat : Option (List Char) → List Char
  | some s => s
  | none => "None".toList

/-- The keyword arguments of `run_waiwera` coming from the CLI parser. -/
structure RunConfig where
  image : Option (List Char)
  repo : List Char
  tag : List Char
  num_processors : Option (List Char)
  interactive : Bool
  noupdate : Bool
deriving DecidableEq, Repr

/-- The `docker run` argument vector assembled by `run_waiwera`
(waiwera-dkr.py lines 385-421), including the final removal of empty
strings. -/
def run_cmd_model (current_path : Option (List Char)) (cfg : RunConfig)
    (waiwera_args : List (List Char)) : List (List Char) :=
  let image := match cfg.image with
    | none => [cfg.repo ++ [':'] ++ cfg.tag]
    | some i => [i]
  let np := match cfg.num_processors with
    | some n => ["-np".toList, n]
    | none => [[]]
  let it := if cfg.interactive then ["--interactive".toList, "--tty".toList] else [[]]
  let work_dir := if cfg.interactive then [[]] else ["--workdir".toList, "/data".toList]
  let mpiexec := if cfg.interactive then ["/bin/bash".toList]
    else ["mpiexec".toList] ++ np ++ [WAIWERA_PATH]
  (["docker".toList, "run".toList, "--cidfile".toList, ".cid".toList,
    "--rm".toList, "--volume".toList,
    optFormat current_path ++ [':'] ++ "/data".toList] ++
    it ++ work_dir ++ image ++ mpiexec ++ waiwera_args).filter (· ≠ [])

/-- Presence/content of the two lifecycle marker files in the working
directory: `.idcheck` (present or not) and `.cid` (content when
present). -/
structure FS where
  idcheck : Bool
  cid : Option (List Char)
deriving DecidableEq, Repr

/-- Observable behaviour of the external container run: whether
`subprocess.Popen` itself succeeds (raises `OSError` otherwise), what the
engine writes into the `--cidfile` (`none` = file never created), and the
exit status `p.wait()` returns. -/
structure RunOracle where
  spawnOk : Bool
  cidWritten : Option (List Char)
  ret : Int
deriving DecidableEq, Repr

/-- Result of a `run_waiwera` call: the argument vector passed to `Popen`
(`none` when execution never reached the spawn), and either the container
exit status with the final marker state, or — on an uncaught exception —
the marker state left behind at the raise. -/
structure RunResult where
  spawnedCmd : Option (List (List Char))
  outcome : Except FS (FS × Int)
deriving Repr

/-- `DockerEnv.run_waiwera` (waiwera-dkr.py lines 379-433): translate the
path, build the command, create `.idcheck`, spawn, wait, read `.cid`, and
remove both markers.  The removals (lines 432-433) are straight-line code
with no `try/finally`: a `Popen` failure or a missing `.cid` raises first
and the markers present at that moment stay on disk. -/
def DockerEnv.run_waiwera (plat : Platform) (is_toolbox : Bool)
    (folder_map : List (List Char × List Char)) (vo : VolumeOracle)
    (path : List Char) (cfg : RunConfig) (waiwera_args : List (List Char))
    (fs0 : FS) (ro : RunOracle) : RunResult :=
  match DockerEnv.volume_path plat is_toolbox folder_map vo path with
  | Except.error _ => ⟨none, Except.error fs0⟩
  | Except.ok current_path =>
    let cmd := run_cmd_model current_path cfg waiwera_args
    let fs1 : FS := ⟨true, fs0.cid⟩
    if ro.spawnOk then
      let fs2 : FS := ⟨true, match ro.cidWritten with
        | some c => some c
        | none => fs1.cid⟩
      match fs2.cid with
      | none => ⟨some cmd, Except.error fs2⟩
      | some _ => ⟨some cmd, Except.ok (⟨false, none⟩, ro.ret)⟩
    else ⟨some cmd, Except.error fs1⟩

/-- Python `f.readline()` on the cid file: the first line of its content
(the part before the first newline). -/
def firstLine (content : List Char) : List Char :=
  content.takeWhile (fun c => c ≠ '\n')

/-- Observable effect of one run of `signal_handler`: the container ids a
`docker kill` was issued against, the `.cid` file afterwards, and the
status passed to `sys.exit`. -/
structure SigResult where
  kills : List (List Char)
  cidFile : Option (List Char)
  exitCode : Int
deriving DecidableEq, Repr

/-- `signal_handler` (waiwera-dkr.py lines 439-449), as a function of the
current `.cid` file: when the file exists, read
`f.readline().strip()[:CID_LEN]`, issue one `docker kill` against it,
remove the file and `sys.exit(1)`; when it does not exist, just
`sys.exit(1)`. -/
def signal_handler (cidFile : Option (List Char)) : SigResult :=
  match cidFile with
  | some content =>
    ⟨[(pyStrip (firstLine content)).take CID_LEN], none, 1⟩
  | none => ⟨[], none, 1⟩

/-- Exit status of the whole wrapper process for a non-interrupted
invocation (`__main__`, waiwera-dkr.py lines 540-543): `DockerEnv(check=
True)` then `run_waiwera`.  An uncaught exception makes the Python
interpreter exit with status 1; `exit(1)` inside the repair exits 1; when
`run_waiwera` returns, the script falls off the end and the process exits
0 — the container status `ret` is not propagated. -/
def script_main (io : InitOracle)
    (folder_map : List (List Char × List Char)) (vo : VolumeOracle)
    (path : List Char) (cfg : RunConfig) (waiwera_args : List (List Char))
    (fs0 : FS) (ro : RunOracle) : Int :=
  match DockerEnv.init io with
  | InitOutcome.ok st =>
    match (DockerEnv.run_waiwera io.platform (st.is_toolbox = some true)
        folder_map vo path cfg waiwera_args fs0 ro).outcome with
    | Except.ok _ => 0
    | Except.error _ => 1
  | InitOutcome.raisedRepairFail => 1
  | InitOutcome.raisedNotRunning => 1
  | InitOutcome.exited1 => 1
  | InitOutcome.crashed => 1

/-! Concrete data shared by several statements. -/

/-- Default CLI configuration: no explicit image, default repo and tag, no
processor count, batch mode, with update. -/
def cfgDefault : RunConfig := ⟨none, REPO, TAG, none, false, false⟩

/-- A well-formed shared-folder entry line
`Name: 'n', Host path: 'h' (x)`. -/
def vmEntryLine (n h : List Char) : List Char :=
  nameOpenLit ++ n ++ hostMidLit ++ h ++ ['\'', ' ', '(', 'x', ')']

/-- A single newline. -/
def nlChar : List Char := ['\n']

/-- `showvminfo` text whose section contains two blank lines that are NOT
adjacent: header, blank, entry a, blank, entry b, entry c. -/
def vminfoNonConsec : List Char :=
  sharedFoldersLit ++ nlChar ++ nlChar ++ vmEntryLine ['a'] ['h', 'a'] ++
    nlChar ++ nlChar ++ vmEntryLine ['b'] ['h', 'b'] ++ nlChar ++
    vmEntryLine ['c'] ['h', 'c'] ++ nlChar

/-- `true` iff some two adjacent lines are both blank after stripping. -/
def hasConsecutiveBlanks : List (List Char) → Bool
  | l1 :: l2 :: rest =>
    (decide (pyStrip l1 = [] ∧ pyStrip l2 = [])) ||
      hasConsecutiveBlanks (l2 :: rest)
  | _ => false

/-- C7 counterexample: the method maps `C:\data\run` to `/C/data/run`
(drive letter kept, upper case preserved), not to `/c/data/run` as the
claim states. -/
theorem C7_counterexample :
    DockerEnv.convert_path_nt_to_posix ("C:\\data\\run".toList) ≠
      "/c/data/run".toList := by
  decide

/-- C7 amended: the Windows-to-POSIX rewrite keeps the drive letter with
its original case and strips only the colon; backslashes become forward
slashes, each `//` collapses to `/` in one left-to-right pass, and the
result is prefixed with `/`; it maps `C:\data\run` to `/C/data/run` (and
`C:\data\\run`, with a doubled backslash, also to `/C/data/run`). -/
theorem C7_amended :
    DockerEnv.convert_path_nt_to_posix ("C:\\data\\run".toList) =
        "/C/data/run".toList ∧
      DockerEnv.convert_path_nt_to_posix ("C:\\data\\\\run".toList) =
        "/C/data/run".toList := by
  constructor <;> rfl

/-- C10 counterexample: on the path `a\\b` (doubled backslash) the
module-level function yields `/a//b` while the method yields `/a/b`, so
the two implementations are not equivalent. -/
theorem C10_counterexample :
    convert_path_nt_to_posix ("a\\\\b".toList) ≠
      DockerEnv.convert_path_nt_to_posix ("a\\\\b".toList) := by
  decide

/-- C10 amended: the two rewrites agree exactly on paths whose
backslash-to-slash, colon-stripped form contains no two adjacent forward
slashes; on the others the method collapses each `//` while the module
function keeps it. -/
theorem C10_amended (path : List Char)
    (h : hasDoubleSlash (pyDeleteChar ':' (pyReplaceChar '\\' '/' path)) = false) :
    convert_path_nt_to_posix path = DockerEnv.convert_path_nt_to_posix path := by
  unfold convert_path_nt_to_posix DockerEnv.convert_path_nt_to_posix
  rw [collapseDoubleSlash_eq_self _ h]

/-- C10 amended, witnessed at `C:\data\run`: the side condition holds and
the two functions agree there. -/
theorem C10_amended_witness :
    hasDoubleSlash (pyDeleteChar ':' (pyReplaceChar '\\' '/' ("C:\\data\\run".toList))) = false ∧
      convert_path_nt_to_posix ("C:\\data\\run".toList) =
        DockerEnv.convert_path_nt_to_posix ("C:\\data\\run".toList) :=
  ⟨by decide, C10_amended ("C:\\data\\run".toList) (by decide)⟩

/-- C2: when the container-id marker exists, the interrupt handler issues
exactly one kill, targeting the first `CID_LEN = 12` characters of the
(stripped first line of the) recorded identifier, removes the marker and
exits with status 1; when the marker does not exist it issues no kill; in
particular a marker recording `abcdef123456` leads to exactly the kill
`abcdef123456`. -/
theorem C2_signal_handler :
    (∀ content : List Char,
        (signal_handler (some content)).kills =
            [(pyStrip (firstLine content)).take CID_LEN] ∧
          (signal_handler (some content)).cidFile = none ∧
          (signal_handler (some content)).exitCode = 1) ∧
      (signal_handler none).kills = [] ∧
      (signal_handler (some ("abcdef123456".toList ++ ['\n']))).kills =
        ["abcdef123456".toList] := by
  refine ⟨fun content => ⟨rfl, rfl, rfl⟩, rfl, ?_⟩
  decide

/-- Lines not starting with the `Shared folders:` header are skipped by
the parser loop while outside a section. -/
theorem parseVminfoLoop_skip (empty : Nat)
    (maps : List (List Char × List Char)) (rest : List (List Char)) :
    ∀ (pre : List (List Char)),
      pre.all (fun l => !(sharedFoldersLit.isPrefixOf l)) = true →
      parseVminfoLoop false empty maps (pre ++ rest) =
        parseVminfoLoop false empty maps rest := by
  intro pre
  induction pre with
  | nil => intro _; rfl
  | cons l pre ih =>
    intro h
    rw [List.all_cons, Bool.and_eq_true] at h
    have h1 : sharedFoldersLit.isPrefixOf l = false := by
      simpa using h.1
    rw [List.cons_append, parseVminfoLoop, h1]
    simpa using ih h.2

/-- C8 counterexample: on a section whose two blank lines are separated by
an entry (no two blank lines are adjacent anywhere), the parser stops at
the second blank line overall and silently drops the following well-formed
entries — it counts blank lines cumulatively, not consecutively. -/
theorem C8_counterexample :
    parse_vminfo vminfoNonConsec = some [(['h', 'a'], ['a'])] ∧
      hasConsecutiveBlanks (splitNl vminfoNonConsec) = false ∧
      searchEntry (vmEntryLine ['b'] ['h', 'b']) = some (['b'], ['h', 'b']) := by
  refine ⟨by decide, by decide, by decide⟩

/-- C8 amended: the parser appends `(hostPath, name)` entries from the
lines after a `Shared folders:` header only until two blank lines IN
TOTAL (not necessarily consecutive) have been seen; a header line
containing the `<none>` marker yields an empty mapping whatever follows,
an input with no header line at all yields an empty mapping (not an
error), and a header followed by one well-formed entry and then two blank
lines yields exactly that single-element mapping. -/
theorem C8_amended :
    (∀ (pre : List (List Char)) (hdr : List Char) (post : List (List Char)),
        pre.all (fun l => !(sharedFoldersLit.isPrefixOf l)) = true →
        sharedFoldersLit.isPrefixOf hdr = true →
        containsSub noneMarkerLit hdr = true →
        parseVminfoLoop false 0 [] (pre ++ hdr :: post) = some []) ∧
      (∀ (lines : List (List Char)),
        lines.all (fun l => !(sharedFoldersLit.isPrefixOf l)) = true →
        parseVminfoLoop false 0 [] lines = some []) ∧
      parse_vminfo (sharedFoldersLit ++ nlChar ++ vmEntryLine ['a'] ['h', 'a'] ++
          nlChar ++ nlChar ++ nlChar ++ "junk after".toList) =
        some [(['h', 'a'], ['a'])] := by
  refine ⟨?_, ?_, by decide⟩
  · intro pre hdr post hpre hhdr hnone
    rw [parseVminfoLoop_skip 0 [] (hdr :: post) pre hpre, parseVminfoLoop, hhdr,
      hnone]
    rfl
  · intro lines h
    have := parseVminfoLoop_skip 0 [] [] lines h
    simpa using this

/-- C8 amended, witnessed on a concrete input: a non-header line, then a
header carrying the `<none>` marker, then a stray entry line — the result
is the empty mapping; and a headerless two-line input also parses to the
empty mapping. -/
theorem C8_amended_witness :
    ([['x']].all (fun l => !(sharedFoldersLit.isPrefixOf l)) = true ∧
        parseVminfoLoop false 0 []
          ([['x']] ++ (sharedFoldersLit ++ noneMarkerLit) ::
            [vmEntryLine ['a'] ['h', 'a']]) = some []) ∧
      parseVminfoLoop false 0 [] [['x'], ['y']] = some [] :=
  ⟨⟨by decide,
      C8_amended.1 [['x']] (sharedFoldersLit ++ noneMarkerLit)
        [vmEntryLine ['a'] ['h', 'a']] (by decide) (by decide) (by decide)⟩,
    C8_amended.2.1 [['x'], ['y']] (by decide)⟩

/-- C3 counterexample: a structured status output whose OS descriptor
contains `boot2docker` (case-insensitively) and has no server-error
field, but which accompanies a FAILED status query (`call` returned
false): `check_running` leaves `running = false` and keeps the prior
`is_toolbox = false` — neither `mode=Toolbox` nor `running=true` as the
claim demands for every such structured output. -/
theorem C3_counterexample :
    containsSub boot2dockerLit (pyLower ("Boot2Docker 19.03".toList)) = true ∧
      DockerEnv.check_running ⟨none, some false⟩
          ⟨false, some ⟨false, "Boot2Docker 19.03".toList⟩⟩ =
        Except.ok ⟨some false, some false⟩ := by
  exact ⟨by decide, rfl⟩

/-- C3 amended: every status-query output that fails to parse sets
`is_toolbox = true` regardless of the success flag; every structured
output of a SUCCESSFUL status query whose OS descriptor contains
`boot2docker` case-insensitively and has no server-error field yields
`running = true` and `is_toolbox = true`; and whenever a structured output
carries the server-error field the probe ends with `running = false`. -/
theorem C3_amended :
    (∀ (prior : EnvState) (callOk : Bool),
        (exceptState (DockerEnv.check_running prior ⟨callOk, none⟩)).is_toolbox =
          some true) ∧
      (∀ (prior : EnvState) (info : DockerInfo),
        info.hasServerErrors = false →
        containsSub boot2dockerLit (pyLower info.operatingSystem) = true →
        DockerEnv.check_running prior ⟨true, some info⟩ =
          Except.ok ⟨some true, some true⟩) ∧
      (∀ (prior : EnvState) (callOk : Bool) (info : DockerInfo),
        info.hasServerErrors = true →
        (exceptState (DockerEnv.check_running prior ⟨callOk, some info⟩)).running =
          some false) := by
  refine ⟨?_, ?_, ?_⟩
  · intro prior callOk
    cases callOk <;> rfl
  · intro prior info h1 h2
    simp [DockerEnv.check_running, h1, h2]
  · intro prior callOk info h
    cases callOk <;> simp [DockerEnv.check_running, exceptState, h]

/-- C3 amended, witnessed: a successful query with a boot2docker OS
descriptor and no server errors classifies Toolbox-and-running, and a
structured output with server errors ends not-running. -/
theorem C3_amended_witness :
    DockerEnv.check_running ⟨none, none⟩
        ⟨true, some ⟨false, "Boot2Docker 19.03".toList⟩⟩ =
      Except.ok ⟨some true, some true⟩ ∧
      (exceptState (DockerEnv.check_running ⟨none, none⟩
          ⟨true, some ⟨true, "Ubuntu 20.04".toList⟩⟩)).running = some false :=
  ⟨C3_amended.2.1 ⟨none, none⟩ ⟨false, "Boot2Docker 19.03".toList⟩ rfl (by decide),
    C3_amended.2.2 ⟨none, none⟩ true ⟨true, "Ubuntu 20.04".toList⟩ rfl⟩

/-- C4: the repair sequence performs NO re-probe after its last repair
step.  Whatever a re-probe after `repair_win_toolbox` would report — the
quantified `p`, including a fully healthy daemon — `__init__` reaches
`raise Exception('Error, unable to repair Docker Toolbox!')`, because
`repair_win_toolbox` never assigns `self.running` and the final
`if not self.running` test re-reads the stale pre-repair value.  The
claim's final re-probe reaching Ready does not exist in the code. -/
theorem C4_no_final_reprobe (p : ProbeInput) :
    DockerEnv.init
        ⟨true, ⟨false, none⟩, ⟨false, none⟩, Platform.win32, true, p⟩ =
      InitOutcome.raisedRepairFail := rfl

/-- C1 counterexample: when `subprocess.Popen` itself raises (e.g. the
docker binary is missing), `run_waiwera` propagates the exception after
having created `.idcheck` and before reaching the `os.remove` calls: the
start marker still exists when the call raises. -/
theorem C1_counterexample :
    (DockerEnv.run_waiwera Platform.linux false [] ⟨false, []⟩
        ("/home/user/case".toList) cfgDefault [] ⟨false, none⟩
        ⟨false, none, 0⟩).outcome = Except.error ⟨true, none⟩ := rfl

/-- C1 amended: both lifecycle markers are removed when the run completes
normally — path translation returned, the spawn succeeded and the engine
created the container-id file; on the exception paths (spawn raised, or
`.cid` unreadable) the removals are never reached and the markers present
at the raise stay on disk. -/
theorem C1_amended (plat : Platform) (tb : Bool)
    (fm : List (List Char × List Char)) (vo : VolumeOracle)
    (path : List Char) (cfg : RunConfig) (args : List (List Char))
    (fs0 : FS) (ro : RunOracle) (cp : Option (List Char)) (c : List Char)
    (hvp : DockerEnv.volume_path plat tb fm vo path = Except.ok cp)
    (hspawn : ro.spawnOk = true) (hcid : ro.cidWritten = some c) :
    (DockerEnv.run_waiwera plat tb fm vo path cfg args fs0 ro).outcome =
      Except.ok (⟨false, none⟩, ro.ret) := by
  unfold DockerEnv.run_waiwera
  rw [hvp]
  simp [hspawn, hcid]

/-- C1 amended, witnessed: a successful linux run removes both markers and
returns the container status. -/
theorem C1_amended_witness :
    DockerEnv.volume_path Platform.linux false [] ⟨false, []⟩
        ("/home/user/case".toList) = Except.ok (some ("/home/user/case".toList)) ∧
      (DockerEnv.run_waiwera Platform.linux false [] ⟨false, []⟩
          ("/home/user/case".toList) cfgDefault [] ⟨false, none⟩
          ⟨true, some ("abcdef1234567890".toList), 0⟩).outcome =
        Except.ok (⟨false, none⟩, 0) :=
  ⟨rfl, C1_amended _ _ _ _ _ _ _ _ _ _ _ rfl rfl rfl⟩

/-- C6: on Windows Toolbox with an empty shared-folder map and the user
declining the share prompt, `volume_path` returns `None` — yet
`run_waiwera` never checks it: the container IS launched, with the
unresolved mount source formatted as the literal string `None` in
`None:/data`.  The run is not aborted, contradicting the claim that no
container is ever started with an unresolved mount source. -/
theorem C6_launch_with_unresolved_mount :
    DockerEnv.volume_path Platform.win32 true [] ⟨false, []⟩ ("C:\\data".toList) =
        Except.ok none ∧
      (DockerEnv.run_waiwera Platform.win32 true [] ⟨false, []⟩
          ("C:\\data".toList) cfgDefault [] ⟨false, none⟩
          ⟨true, some ("abcdef".toList), 0⟩).spawnedCmd =
        some ["docker".toList, "run".toList, "--cidfile".toList, ".cid".toList,
          "--rm".toList, "--volume".toList, "None:/data".toList,
          "--workdir".toList, "/data".toList, "waiwera/waiwera:latest".toList,
          "mpiexec".toList, "/opt/waiwera/build/waiwera".toList] := by
  exact ⟨rfl, rfl⟩

/-- A healthy native-docker oracle for `DockerEnv.__init__`: both probes
succeed with a non-toolbox OS descriptor and no server errors. -/
def ioHealthy : InitOracle :=
  ⟨true, ⟨true, some ⟨false, "Ubuntu 20.04".toList⟩⟩,
    ⟨true, some ⟨false, "Ubuntu 20.04".toList⟩⟩, Platform.linux, true,
    ⟨true, none⟩⟩

/-- C5 counterexample: a run that completes normally with container exit
status 2 still makes the wrapper process exit 0 — `run_waiwera` never
propagates `ret` and `__main__` falls off the end of the script — so the
wrapper's exit code does not mirror the containerized process's. -/
theorem C5_counterexample :
    script_main ioHealthy [] ⟨false, []⟩ ("/home/user/case".toList) cfgDefault
        [] ⟨false, none⟩ ⟨true, some ("abcdef".toList), 2⟩ = 0 ∧
      (0 : Int) ≠ 2 := by
  exact ⟨rfl, by decide⟩

/-- C5 amended: on normal completion the wrapper exits 0 REGARDLESS of the
containerized process's exit status; on repair failure the uncaught
exception makes it exit 1; and the cancellation handler always exits 1. -/
theorem C5_amended :
    (∀ (io : InitOracle) (fm : List (List Char × List Char))
        (vo : VolumeOracle) (path : List Char) (cfg : RunConfig)
        (args : List (List Char)) (fs0 : FS) (ro : RunOracle)
        (st : EnvState) (pr : FS × Int),
        DockerEnv.init io = InitOutcome.ok st →
        (DockerEnv.run_waiwera io.platform (st.is_toolbox = some true) fm vo
            path cfg args fs0 ro).outcome = Except.ok pr →
        script_main io fm vo path cfg args fs0 ro = 0) ∧
      (∀ (io : InitOracle) (fm : List (List Char × List Char))
        (vo : VolumeOracle) (path : List Char) (cfg : RunConfig)
        (args : List (List Char)) (fs0 : FS) (ro : RunOracle),
        DockerEnv.init io = InitOutcome.raisedRepairFail →
        script_main io fm vo path cfg args fs0 ro = 1) ∧
      (∀ (cf : Option (List Char)), (signal_handler cf).exitCode = 1) := by
  refine ⟨?_, ?_, ?_⟩
  · intro io fm vo path cfg args fs0 ro st pr h1 h2
    simp [script_main, h1, h2]
  · intro io fm vo path cfg args fs0 ro h
    simp [script_main, h]
  · intro cf
    cases cf <;> rfl

/-- C5 amended, witnessed: a healthy init followed by a normal run with
container status 0 exits 0, and the handler exit status is 1. -/
theorem C5_amended_witness :
    script_main ioHealthy [] ⟨false, []⟩ ("/home/user/case".toList) cfgDefault
        [] ⟨false, none⟩ ⟨true, some ("abcdef".toList), 0⟩ = 0 ∧
      (signal_handler none).exitCode = 1 :=
  ⟨C5_amended.1 ioHealthy [] ⟨false, []⟩ ("/home/user/case".toList) cfgDefault
      [] ⟨false, none⟩ ⟨true, some ("abcdef".toList), 0⟩
      ⟨some true, some false⟩ (⟨false, none⟩, 0) rfl rfl,
    C5_amended.2.2 none⟩

/-- The shared-folder mapping of the C9 example. -/
def exMap9 : List (List Char × List Char) :=
  [("C:\\Users".toList, "c_users".toList)]

/-- The path of the C9 example. -/
def exPath9 : List Char := "C:\\Users\\a\\project".toList

/-- C9 counterexample: for the mapping `[("C:\Users","c_users")]` on
Windows Toolbox, translating `C:\Users\a\project` yields
`/c_users/a/project` — the share-relative remainder still carries
backslashes, which the final nt-to-posix rewrite converts while also
prefixing a slash — not the claimed `c_users/a/project`. -/
theorem C9_counterexample :
    DockerEnv.volume_path Platform.win32 true exMap9 ⟨false, []⟩ exPath9 =
        Except.ok (some ("/c_users/a/project".toList)) ∧
      "/c_users/a/project".toList ≠ "c_users/a/project".toList := by
  exact ⟨rfl, by decide⟩

/-- C9 amended: translation is deterministic — whenever the shared-folder
search resolves the path, the result is independent of the interactive
prompt oracle (the only stateful input), so identical
`(path, state, mapping)` triples always translate identically; and the
Windows example above translates to `/c_users/a/project`. -/
theorem C9_amended :
    (∀ (plat : Platform) (tb : Bool) (fm : List (List Char × List Char))
        (vo vo2 : VolumeOracle) (path : List Char),
        (DockerEnv.convert_path_vbox_share plat fm path).isSome = true →
        DockerEnv.volume_path plat tb fm vo path =
          DockerEnv.volume_path plat tb fm vo2 path) ∧
      DockerEnv.volume_path Platform.win32 true exMap9 ⟨false, []⟩ exPath9 =
        Except.ok (some ("/c_users/a/project".toList)) := by
  refine ⟨?_, rfl⟩
  intro plat tb fm vo vo2 path h
  cases hc : DockerEnv.convert_path_vbox_share plat fm path with
  | none => rw [hc] at h; simp at h
  | some c => cases tb <;> simp [DockerEnv.volume_path, hc]

/-- C9 amended, witnessed: with the example mapping resolved, two
different prompt oracles give the same translation. -/
theorem C9_amended_witness :
    (DockerEnv.convert_path_vbox_share Platform.win32 exMap9 exPath9).isSome =
        true ∧
      DockerEnv.volume_path Platform.win32 true exMap9 ⟨false, []⟩ exPath9 =
        DockerEnv.volume_path Platform.win32 true exMap9
          ⟨true, [(['x'], ['y'])]⟩ exPath9 :=
  ⟨rfl,
    C9_amended.1 Platform.win32 true exMap9 ⟨false, []⟩
      ⟨true, [(['x'], ['y'])]⟩ exPath9 rfl⟩

end Waiwera
